import Mathlib

/-!
Verification development for the Healthcare-AI-ML-App repository: a shallow
embedding, in Lean 4, of the feature-engineering, encoding, routing and
dispatch layers of the Flask applications under `src/app/`, together with
theorems checking the natural-language specification against the code.

Python floats are modelled as exact rationals (`ℚ`), Python ints as `ℤ`,
Python dictionaries as association lists, fallible operations (float
parsing, `model.predict`) as `Option`/`Except`, and module-level mutable
state as explicit state passing.
-/

namespace HealthcareApp

/-! ## Disease severity app (`src/app/Disease_Severity_app/Disease.py`) -/

/-- Form fields of a POST to the Disease app, after the `float(...)` and
`int(...)` conversions of lines 43-53 of `Disease.py` succeeded. -/
structure DiseaseForm where
  age : ℚ
  height : ℚ
  weight : ℚ
  systolic_bp : ℚ
  diastolic_bp : ℚ
  glucose : ℚ
  cholesterol : ℚ
  creatinine : ℚ
  diabetes : ℤ
  hypertension : ℤ
  sex : String
deriving DecidableEq

/-- BMI category string, transcribed from `Disease.py` lines 57-61. -/
def bmiCategoryOf (bmi : ℚ) : String :=
  if bmi < 18.5 then "Underweight"
  else if bmi < 25 then "Normal"
  else if bmi < 30 then "Overweight"
  else "Obese"

/-- The 20-element model input built by `disease_predict` (`Disease.py`
lines 55-83). Returns `none` exactly when the BMI division raises
`ZeroDivisionError` in Python, i.e. when `height = 0`. -/
def diseaseFeatures (f : DiseaseForm) : Option (List ℚ) :=
  if f.height = 0 then none
  else
    let bmi := f.weight / ((f.height / 100) ^ 2)
    let bmi_category := bmiCategoryOf bmi
    let map_value := (f.systolic_bp + 2 * f.diastolic_bp) / 3
    let comorbidity_count : ℤ := f.diabetes + f.hypertension
    let high_creatinine_flag : ℚ := if f.creatinine > 1.2 then 1 else 0
    let hyperglycemia_flag : ℚ := if f.glucose > 140 then 1 else 0
    let abnormal_bp_flag : ℚ :=
      if f.systolic_bp > 140 ∨ f.diastolic_bp > 90 then 1 else 0
    let age_creatinine_risk : ℚ :=
      if f.age > 60 ∧ f.creatinine > 1.2 then 1 else 0
    let sex_Male : ℚ := if f.sex = "Male" then 1 else 0
    let sex_Other : ℚ := if f.sex = "Other" then 1 else 0
    let bmiCat_Obese : ℚ := if bmi_category = "Obese" then 1 else 0
    let bmiCat_Overweight : ℚ := if bmi_category = "Overweight" then 1 else 0
    let bmiCat_Underweight : ℚ := if bmi_category = "Underweight" then 1 else 0
    some [f.age, bmi, f.systolic_bp, f.diastolic_bp, f.glucose, f.cholesterol,
      f.creatinine, (f.diabetes : ℚ), (f.hypertension : ℚ), map_value,
      (comorbidity_count : ℚ), high_creatinine_flag, hyperglycemia_flag,
      abnormal_bp_flag, age_creatinine_risk, sex_Male, sex_Other,
      bmiCat_Obese, bmiCat_Overweight, bmiCat_Underweight]

/-- Transcription of `diagnosis_map`, `Disease.py` lines 20-29, as an association list. -/
def diagnosis_map : List (String × ℤ) :=
  [("Asthma", 0), ("Chronic Kidney Disease (CKD)", 1), ("Heart Failure", 2),
   ("Myocardial Infarction", 3), ("Normal", 4), ("Pneumonia", 5),
   ("Sepsis", 6), ("Stroke", 7)]

/-- Transcription of `severity_map`, `Disease.py` line 30. -/
def severity_map : List (String × ℤ) :=
  [("Mild", 0), ("Moderate", 1), ("Severe", 2)]

/-- Transcription of `reverse_diagnosis_map`, `Disease.py` line 32: the dictionary
comprehension swapping keys and values. -/
def reverse_diagnosis_map : List (ℤ × String) :=
  diagnosis_map.map (fun p => (p.2, p.1))

/-- Transcription of `reverse_severity_map`, `Disease.py` line 33. -/
def reverse_severity_map : List (ℤ × String) :=
  severity_map.map (fun p => (p.2, p.1))

/-- Label decoding of a predicted diagnosis code, transcribing
`reverse_diagnosis_map.get(diagnosis_pred, "Unknown")` (`Disease.py` line 89). -/
def decodeDiagnosis (c : ℤ) : String :=
  ((reverse_diagnosis_map.find? (fun p => p.1 == c)).map (fun p => p.2)).getD "Unknown"

/-- Label decoding of a predicted severity code (`Disease.py` line 90). -/
def decodeSeverity (c : ℤ) : String :=
  ((reverse_severity_map.find? (fun p => p.1 == c)).map (fun p => p.2)).getD "Unknown"

/-! ## LOS app (`src/app/LOS app/LOS.py`) -/

/-- Transcription of `ADMISSION_TYPE_ENCODING`, `LOS.py` lines 13-23. -/
def ADMISSION_TYPE_ENCODING : List (String × ℚ) :=
  [("URGENT", 10.50514107), ("ELECTIVE", 11.10701614), ("EW EMER.", 6.09199923),
   ("DIRECT EMER.", 6.66631163), ("EU OBSERVATION", 0.27959982),
   ("OBSERVATION ADMIT", 7.29466506), ("DIRECT OBSERVATION", 0.53996339),
   ("AMBULATORY OBSERVATION", 0.08693663),
   ("SURGICAL SAME DAY ADMISSION", 4.32125206)]

/-- Transcription of `ADMISSION_LOCATION_ENCODING`, `LOS.py` lines 25-36. -/
def ADMISSION_LOCATION_ENCODING : List (String × ℚ) :=
  [("TRANSFER FROM HOSPITAL", 8.3721428),
   ("TRANSFER FROM SKILLED NURSING FACILITY", 10.06164297),
   ("INTERNAL TRANSFER TO OR FROM PSYCH", 8.5),
   ("PHYSICIAN REFERRAL", 5.12127397), ("EMERGENCY ROOM", 5.63717044),
   ("PACU", 0.39633448), ("PROCEDURE SITE", 1.01370599),
   ("WALK-IN/SELF REFERRAL", 2.17361762), ("INFORMATION NOT AVAILABLE", 5.0),
   ("CLINIC REFERRAL", 8.9251711)]

/-- Python `dict.get(key, 0)` on an association-list dictionary. -/
def dictGetD (table : List (String × ℚ)) (k : String) (d : ℚ) : ℚ :=
  ((table.find? (fun p => p.1 == k)).map (fun p => p.2)).getD d

/-- Module-level mutable state of the LOS app: the two encoding
dictionaries. State passing makes any mutation by a handler visible. -/
structure LOSState where
  admissionTypeTable : List (String × ℚ)
  admissionLocationTable : List (String × ℚ)
deriving DecidableEq

/-- The LOS module state as initialised at import. -/
def losInitState : LOSState :=
  { admissionTypeTable := ADMISSION_TYPE_ENCODING,
    admissionLocationTable := ADMISSION_LOCATION_ENCODING }

/-- Form fields of a POST to the LOS index route; `request.form.get`
returns `none` for a missing field. -/
structure LOSForm where
  admission_type : Option String
  admission_location : Option String
  insurance : Option String
  language : Option String
  marital_status : Option String
  drg_type : Option String
  gender : Option String
  age : Option String
deriving DecidableEq

/-- Python truthiness of an optional string: `None` and `""` are falsy. -/
def truthy : Option String → Bool
  | none => false
  | some s => s ≠ ""

/-- The `all([...])` check of `LOS.py` lines 60-61. -/
def losAllFilled (f : LOSForm) : Bool :=
  truthy f.admission_type && truthy f.admission_location &&
  truthy f.insurance && truthy f.language && truthy f.marital_status &&
  truthy f.drg_type && truthy f.gender && truthy f.age

/-- The 11-element model input built by the LOS `index` handler
(`LOS.py` lines 67-104), given the parsed `age`. -/
def losFeatures (st : LOSState) (f : LOSForm) (age : ℚ) : List ℚ :=
  let admission_type_val := dictGetD st.admissionTypeTable (f.admission_type.getD "") 0
  let admission_location_val := dictGetD st.admissionLocationTable (f.admission_location.getD "") 0
  let insurance_Medicare : ℚ := if f.insurance = some "Medicare" then 1 else 0
  let insurance_Other : ℚ := if f.insurance = some "Other" then 1 else 0
  let language_OTHERS : ℚ := if f.language ≠ some "ENGLISH" then 1 else 0
  let marital_status_MARRIED : ℚ := if f.marital_status = some "MARRIED" then 1 else 0
  let marital_status_SINGLE : ℚ := if f.marital_status = some "SINGLE" then 1 else 0
  let marital_status_WIDOWED : ℚ := if f.marital_status = some "WIDOWED" then 1 else 0
  let drg_type_HCFA : ℚ := if f.drg_type = some "HCFA" then 1 else 0
  let gender_M : ℚ := if f.gender = some "male" then 1 else 0
  [admission_type_val, admission_location_val, age, insurance_Medicare,
   insurance_Other, language_OTHERS, marital_status_MARRIED,
   marital_status_SINGLE, marital_status_WIDOWED, drg_type_HCFA, gender_M]

/-- Round-half-to-even on rationals, the rounding of Python `round`. -/
def halfEvenRound (q : ℚ) : ℤ :=
  let f := ⌊q⌋
  let r := q - (f : ℚ)
  if r < 1/2 then f
  else if (1:ℚ)/2 < r then f + 1
  else if f % 2 = 0 then f else f + 1

/-- Python `round(q, 2)`. -/
def pyRound2 (q : ℚ) : ℚ := ((halfEvenRound (q * 100) : ℚ)) / 100

/-- The POST branch of the LOS `index` handler (`LOS.py` lines 48-111),
with float parsing and the loaded model artifact passed as parameters
(`Except` errors model Python exceptions carrying `str(e)`). The handler
returns the possibly-updated module state and the `prediction` string
handed to the rendered template. -/
def losIndexPost (st : LOSState) (parseFloat : String → Except String ℚ)
    (predict : List ℚ → Except String ℚ) (f : LOSForm) :
    LOSState × Option String :=
  if ¬ losAllFilled f then
    (st, some "⚠️ Please fill all fields")
  else
    match parseFloat (f.age.getD "") with
    | .error e => (st, some ("❌ Prediction failed: " ++ e))
    | .ok age =>
      match predict (losFeatures st f age) with
      | .error e => (st, some ("❌ Prediction failed: " ++ e))
      | .ok v =>
        (st, some ("Predicted Length of Stay: " ++ toString (pyRound2 v) ++ " days"))

/-! ## Patient clustering app (`src/app/Patient_Clustering/patient_cluster.py`) -/

/-- A pandas cell value: a string, a number, or NaN (the result of a
failed `.map` lookup). -/
inductive Value where
  | str (s : String)
  | num (q : ℚ)
  | nan
deriving DecidableEq

/-- A one-row pandas DataFrame: an ordered list of column name / value
pairs, as built from `input_dict` in the `predict` route. -/
abbrev Frame := List (String × Value)

/-- Transcription of `categorical_Binary`, `patient_cluster.py` line 45. -/
def categorical_Binary : List String := ["Exercise", "Sex", "Smoking_History"]

/-- Transcription of `mappings`, `patient_cluster.py` lines 47-60. -/
def clusterMappings : List (String × List (String × ℚ)) :=
  [("General_Health",
    [("Poor", 0), ("Fair", 1), ("Good", 2), ("Very Good", 3), ("Excellent", 4)]),
   ("Checkup",
    [("Within the past year", 4), ("Within the past 2 years", 3),
     ("Within the past 5 years", 2), ("5 or more years ago", 1), ("Never", 0)]),
   ("Age_Category",
    [("18-24", 0), ("25-29", 1), ("30-34", 2), ("35-39", 3), ("40-44", 4),
     ("45-49", 5), ("50-54", 6), ("55-59", 7), ("60-64", 8), ("65-69", 9),
     ("70-74", 10), ("75-79", 11), ("80+", 12)]),
   ("Diabetes",
    [("No", 0), ("No, pre-diabetes or borderline diabetes", 1),
     ("Yes, but female told only during pregnancy", 1), ("Yes", 2)])]

/-- Module-level objects read by `preprocess_input`: the pickled label
encoders and scaler (abstracted as functions, since the artifacts are not
in the source tree) and the `mappings` table and `x_cluster` column list
from `patient_cluster.py`. State passing makes any write visible. -/
structure ClusterState where
  labelEncode : String → String → ℚ
  scale : List Value → List Value
  mappings : List (String × List (String × ℚ))
  featureNames : List String

/-- Transcription of `label_encoders[col].transform([v])[0]` applied to one cell: a
scikit-learn LabelEncoder maps a category to a numeric code. -/
def applyLabelEncode (le : String → String → ℚ) (col : String) : Value → Value
  | .str s => .num (le col s)
  | v => v

/-- Transcription of `Series.map(dict)` applied to one cell: a key found in the dictionary
is replaced by its value, anything else becomes NaN. -/
def applyMapDict (m : List (String × ℚ)) : Value → Value
  | .str s =>
    match (m.find? (fun p => p.1 == s)).map (fun p => p.2) with
    | some q => .num q
    | none => .nan
  | _ => .nan

/-- Effect on one cell of the `label_encoders` loop of `preprocess_input`
(`patient_cluster.py` lines 63-64): a column in `categorical_Binary` is
overwritten with its label-encoded value. -/
def mutateCell1 (st : ClusterState) (cv : String × Value) : String × Value :=
  if cv.1 ∈ categorical_Binary then
    (cv.1, applyLabelEncode st.labelEncode cv.1 cv.2)
  else cv

/-- Effect on one cell of the `mappings` loop of `preprocess_input`
(`patient_cluster.py` lines 66-68): a column with an entry in `mappings`
is overwritten with its mapped value. -/
def mutateCell2 (st : ClusterState) (cv : String × Value) : String × Value :=
  match (st.mappings.find? (fun p => p.1 == cv.1)).map (fun p => p.2) with
  | some m => (cv.1, applyMapDict m cv.2)
  | none => cv

/-- The in-place column assignments of `preprocess_input`
(`patient_cluster.py` lines 63-68): first the `label_encoders` loop over
`categorical_Binary`, then the `mappings` loop over the frame columns.
These assignments mutate the DataFrame object passed by the caller. -/
def mutateFrame (st : ClusterState) (data : Frame) : Frame :=
  (data.map (mutateCell1 st)).map (mutateCell2 st)

/-- Transcription of `preprocess_input`, `patient_cluster.py` lines 62-73, with explicit
state passing. The result triple is: the module state after the call, the
returned DataFrame (columns dropped, scaled, relabelled with the
`x_cluster` column names), and the argument DataFrame as the caller sees
it after the call (the in-place column writes, without the local
rebinding done by `data = data.drop(...)`). -/
def preprocess_input (st : ClusterState) (data : Frame) :
    ClusterState × Frame × Frame :=
  let mutated := mutateFrame st data
  let dropped := mutated.filter
    (fun cv => cv.1 ≠ "Height_(cm)" ∧ cv.1 ≠ "Weight_(kg)")
  let scaled := st.scale (dropped.map (fun cv => cv.2))
  (st, st.featureNames.zip scaled, mutated)

/-! ## Patient deterioration / readmission app
(`src/app/Patient_detoriation_readmission/patient.py`) -/

/-- Risk status label from a probability, transcribed from `patient.py`
lines 693-694. -/
def statusOf (p : ℚ) : String :=
  if p > 0.7 then "High" else if p > 0.4 then "Moderate" else "Low"

/-- The `result` dictionary built by `predict_risk` (`patient.py` lines
696-701) from the two predicted probabilities. -/
structure RiskResult where
  det_prob : ℚ
  readm_prob : ℚ
  det_status : String
  readm_status : String
deriving DecidableEq

/-- Transcription of `predict_risk` steps 4 and the result assembly. -/
def predictRiskResult (det_prob readm_prob : ℚ) : RiskResult :=
  { det_prob := pyRound2 (det_prob * 100),
    readm_prob := pyRound2 (readm_prob * 100),
    det_status := statusOf det_prob,
    readm_status := statusOf readm_prob }

/-! ## Routes and their shared-state effects (claim C5 data model) -/

/-- Kinds of shared-state effects a request handler can perform: SQLite
writes and reads, file-system writes and removals, and writes to the
cross-request server-side session. -/
inductive Effect where
  | dbInsert
  | dbSelect
  | dbDelete
  | fileWrite
  | fileRemove
  | sessionWrite
deriving DecidableEq

/-- All request-handling routes of the apps present in the source tree. -/
inductive Route where
  | homeIndex          -- Home/app.py  `home`
  | saveAppointment    -- Home/app.py  `save_appointment`
  | getAppointments    -- Home/app.py  `get_appointments`
  | deleteAppointment  -- Home/app.py  `delete_appointment`
  | adminLogin         -- Home/app.py  `admin_login`
  | adminPanel         -- Home/app.py  `admin_panel` (wrapped by login_required)
  | adminLogout        -- Home/app.py  `admin_logout`
  | diseasePredict     -- Disease_Severity_app/Disease.py  `disease_predict`
  | losIndex           -- LOS app/LOS.py  `index`
  | patientIndex       -- Patient_detoriation_readmission/patient.py  `index`
  | patientPage        -- Patient_detoriation_readmission/patient.py  `patient_page`
  | predictRisk        -- Patient_detoriation_readmission/patient.py  `predict_risk`
  | imagePage          -- Image_Diagnostics/app.py  `image_diagnostics_page`
  | predictXray        -- Image_Diagnostics/app.py  `predict_xray`
  | predictMri         -- Image_Diagnostics/app.py  `predict_mri`
  | summarizerHome     -- Patient_discharge_summarizer/summarizer.py  `home`
  | summarizeRoute     -- Patient_discharge_summarizer/summarizer.py  `summarize`
  | uploadFile         -- Patient_discharge_summarizer/summarizer.py  `upload_file`
  | app1Home           -- Patient_discharge_summarizer/app1.py  `home`
  | app1SummarizeText  -- Patient_discharge_summarizer/app1.py  `summarize_text`
  | app1SummarizeFile  -- Patient_discharge_summarizer/app1.py  `summarize_file` (/upload)
  | app1Tts            -- Patient_discharge_summarizer/app1.py  `tts`
  | clusterHome        -- Patient_Clustering/patient_cluster.py  `home`
  | clusterPredict     -- Patient_Clustering/patient_cluster.py  `predict`
  | chatbotHome        -- Med-GPT(Chatbot)/chatbot.py  `home`
  | medgptIndex        -- Med-GPT(Chatbot)/app.py  `index`
  | medgptAsk          -- Med-GPT(Chatbot)/app.py  `ask`
deriving DecidableEq

/-- The set of shared-state effect kinds each handler may perform on some
branch, transcribed from the handler bodies: `delete_appointment` runs a
SQL DELETE; `admin_login`, `admin_logout` and `login_required` write the
session (login flag and flash messages); `admin_panel` selects rows and
may flash; the Image-Diagnostics index pops session keys; `predict_xray`
and `predict_mri` save the upload to disk, remove it, and store the
result in the session; in `app1.py` the `summarize_file` handler saves
the upload into the temp directory without removing it and the `tts`
handler writes an mp3 file with delete=False without removing it; every
other handler performs pure computation, a model call, or an outbound
API call only. -/
def routeEffects : Route → List Effect
  | .homeIndex => []
  | .saveAppointment => [.dbInsert]
  | .getAppointments => [.dbSelect]
  | .deleteAppointment => [.dbDelete]
  | .adminLogin => [.sessionWrite]
  | .adminPanel => [.sessionWrite, .dbSelect]
  | .adminLogout => [.sessionWrite]
  | .diseasePredict => []
  | .losIndex => []
  | .patientIndex => []
  | .patientPage => []
  | .predictRisk => []
  | .imagePage => [.sessionWrite]
  | .predictXray => [.sessionWrite, .fileWrite, .fileRemove]
  | .predictMri => [.sessionWrite, .fileWrite, .fileRemove]
  | .summarizerHome => []
  | .summarizeRoute => []
  | .uploadFile => []
  | .app1Home => []
  | .app1SummarizeText => []
  | .app1SummarizeFile => [.fileWrite]
  | .app1Tts => [.fileWrite]
  | .clusterHome => []
  | .clusterPredict => []
  | .chatbotHome => []
  | .medgptIndex => []
  | .medgptAsk => []

/-- The routes whose effects go beyond a per-request SQLite insert or
select. -/
def statefulRoutes : List Route :=
  [.deleteAppointment, .adminLogin, .adminPanel, .adminLogout,
   .imagePage, .predictXray, .predictMri, .app1SummarizeFile, .app1Tts]

/-! ## Model artifacts and load events (claim C6 data model) -/

/-- The serialized model artifacts deserialized by the apps in the source
tree. -/
inductive Artifact where
  | etModelDiagnosis      -- Disease.py line 16, pickle.load
  | rfModelSeverity       -- Disease.py line 17, pickle.load
  | bestLosModel          -- LOS.py line 10, joblib.load
  | gruCriticalForecaster -- patient.py line 32, load_model
  | gruReadmission        -- patient.py line 33, load_model
  | xrayDensenet          -- Image_Diagnostics/app.py line 73, TFSMLayer
  | mriDensenetOnnx       -- Image_Diagnostics/app.py line 84, InferenceSession
  | randomForestCluster   -- patient_cluster.py line 28, joblib load
  | scalerArtifact        -- patient_cluster.py line 29, joblib load
  | labelEncodersArtifact -- patient_cluster.py line 30, joblib load
  | summarizerSeq2Seq     -- summarizer.py lines 18-19, from_pretrained
  | chatEmbeddingModel    -- embedding_utils.py lines 8-9, from_pretrained
deriving DecidableEq

/-- Deserialization events executed at module import time, in source
order across the modules. -/
def importLoads : List Artifact :=
  [.etModelDiagnosis, .rfModelSeverity, .bestLosModel,
   .gruCriticalForecaster, .gruReadmission, .xrayDensenet, .mriDensenetOnnx,
   .randomForestCluster, .scalerArtifact, .labelEncodersArtifact,
   .summarizerSeq2Seq, .chatEmbeddingModel]

/-- Deserialization events executed inside a request handler, transcribed
per route: no handler body contains a `pickle.load`, `joblib.load`,
`load_model`, `TFSMLayer`, `InferenceSession` or `from_pretrained` call. -/
def handlerLoads : Route → List Artifact
  | _ => []

/-- Per-artifact deserialization count of a process, as a function state. -/
def LoadCount := Artifact → ℕ

/-- Process state right after all module imports. -/
def startupLoadCount : LoadCount := fun a => importLoads.count a

/-- Handling one request adds the load events of its handler. -/
def stepRequest (c : LoadCount) (r : Route) : LoadCount :=
  fun a => c a + (handlerLoads r).count a

/-- Load counts after serving a sequence of requests in one process. -/
def runRequests (rs : List Route) : LoadCount :=
  rs.foldl stepRequest startupLoadCount

/-! ## WSGI dispatcher (`src/app/wsgi.py`) -/

/-- The nine Flask applications composed by `wsgi.py`. -/
inductive AppId where
  | home
  | los
  | disease
  | patient
  | imageDiagnostics
  | summarizer
  | senti
  | cluster
  | chat
deriving DecidableEq

/-- The mount table of `DispatcherMiddleware` (`wsgi.py` lines 16-25):
URL path prefixes, as segment lists, mapped to apps. The home app is the
default app mounted at the root. -/
def mounts : List (List String × AppId) :=
  [(["LOS"], .los), (["Disease"], .disease), (["Patient"], .patient),
   (["Image-Diagnostics"], .imageDiagnostics), (["Summarizer"], .summarizer),
   (["Senti"], .senti), (["Cluster"], .cluster), (["chat"], .chat)]

/-- Python `script in self.mounts` / `self.mounts[script]` lookup. -/
def lookupMount (s : List String) : Option AppId :=
  if s = ["LOS"] then some .los
  else if s = ["Disease"] then some .disease
  else if s = ["Patient"] then some .patient
  else if s = ["Image-Diagnostics"] then some .imageDiagnostics
  else if s = ["Summarizer"] then some .summarizer
  else if s = ["Senti"] then some .senti
  else if s = ["Cluster"] then some .cluster
  else if s = ["chat"] then some .chat
  else none

/-- The dispatch loop of werkzeug DispatcherMiddleware on a request path
split into segments: repeatedly strip the last segment until the script
is a mount key; an exhausted script falls back to the root app. -/
def dispatchApp (script : List String) : AppId :=
  match script with
  | [] => AppId.home
  | x :: xs =>
    match lookupMount (x :: xs) with
    | some a => a
    | none => dispatchApp (x :: xs).dropLast
termination_by script.length
decreasing_by simp [List.length_dropLast]

/-! ## Concrete fixtures used by witnesses and counterexamples -/

/-- A concrete Disease form: a 65-year-old obese male with abnormal
vitals. -/
def dfW : DiseaseForm :=
  { age := 65, height := 160, weight := 80, systolic_bp := 150,
    diastolic_bp := 95, glucose := 150, cholesterol := 200,
    creatinine := 1.5, diabetes := 1, hypertension := 1, sex := "Male" }

/-- A concrete, fully filled LOS form. -/
def lfW : LOSForm :=
  { admission_type := some "URGENT", admission_location := some "EMERGENCY ROOM",
    insurance := some "Medicare", language := some "ENGLISH",
    marital_status := some "SINGLE", drg_type := some "HCFA",
    gender := some "male", age := some "40" }

/-- A LOS form with the age field missing. -/
def lfMissing : LOSForm :=
  { admission_type := some "URGENT", admission_location := some "EMERGENCY ROOM",
    insurance := some "Medicare", language := some "ENGLISH",
    marital_status := some "SINGLE", drg_type := some "HCFA",
    gender := some "male", age := none }

/-- A float parser fixture that accepts "40" and rejects anything else
with the CPython ValueError message shape. -/
def pfW : String → Except String ℚ :=
  fun s => if s = "40" then .ok 40
    else .error ("could not convert string to float: " ++ s)

/-- A model fixture that predicts a constant stay. -/
def prW : List ℚ → Except String ℚ := fun _ => .ok 5

/-- A model fixture that always raises. -/
def prErr : List ℚ → Except String ℚ := fun _ => .error "X has 11 features"

/-- A clustering module state fixture: an arbitrary label encoder and an
identity scaler around the source `mappings` table. -/
def clusterStateW : ClusterState :=
  { labelEncode := fun _ _ => 0, scale := id,
    mappings := clusterMappings, featureNames := [] }

/-- The concrete one-row frame the `predict` route would build. -/
def frameW : Frame :=
  [("General_Health", .str "Good"), ("Checkup", .str "Never"),
   ("Exercise", .str "Yes"), ("Sex", .str "Male"),
   ("Age_Category", .str "25-29"), ("Height_(cm)", .num 170),
   ("Weight_(kg)", .num 70), ("BMI", .num 24), ("Smoking_History", .str "No"),
   ("Alcohol_Consumption", .num 0), ("Fruit_Consumption", .num 30),
   ("Green_Vegetables_Consumption", .num 10), ("FriedPotato_Consumption", .num 4)]

/-! ## Theorems -/

/-- The BMI category computed by `Disease.py` is Obese exactly on `[30, ∞)`. -/
theorem bmiCategoryOf_eq_obese_iff (b : ℚ) : bmiCategoryOf b = "Obese" ↔ 30 ≤ b := by
  unfold bmiCategoryOf
  split_ifs with h1 h2 h3 <;> simp <;> [linarith; linarith; linarith; linarith]

/-- The BMI category is Overweight exactly on `[25, 30)`. -/
theorem bmiCategoryOf_eq_overweight_iff (b : ℚ) :
    bmiCategoryOf b = "Overweight" ↔ 25 ≤ b ∧ b < 30 := by
  unfold bmiCategoryOf
  split_ifs with h1 h2 h3 <;> simp <;> (try constructor) <;> intros <;>
    first | trivial | linarith

/-- The BMI category is Underweight exactly on `(-∞, 18.5)`. -/
theorem bmiCategoryOf_eq_underweight_iff (b : ℚ) :
    bmiCategoryOf b = "Underweight" ↔ b < 18.5 := by
  unfold bmiCategoryOf
  split_ifs with h1 h2 h3 <;> simp <;> linarith

/-- C1: for every POST to the Disease app whose form fields parse as
numbers (with a nonzero height, so that the BMI division succeeds), the
model input is derived purely arithmetically from the submitted fields:
bmi = weight / ((height/100)^2), MAP = (systolic + 2*diastolic)/3,
comorbidity count, the four clinical flags with thresholds 1.2, 140,
140/90 and 60, the one-hot sex indicators, and the BMI-category
indicators with thresholds 18.5, 25 and 30, assembled in the fixed
20-element order of `Disease.py` lines 77-83. -/
theorem c1_disease_feature_vector (f : DiseaseForm) (h : f.height ≠ 0) :
    diseaseFeatures f = some
      [f.age,
       f.weight / ((f.height / 100) ^ 2),
       f.systolic_bp, f.diastolic_bp, f.glucose, f.cholesterol, f.creatinine,
       (f.diabetes : ℚ), (f.hypertension : ℚ),
       (f.systolic_bp + 2 * f.diastolic_bp) / 3,
       ((f.diabetes + f.hypertension : ℤ) : ℚ),
       (if f.creatinine > 1.2 then 1 else 0),
       (if f.glucose > 140 then 1 else 0),
       (if f.systolic_bp > 140 ∨ f.diastolic_bp > 90 then 1 else 0),
       (if f.age > 60 ∧ f.creatinine > 1.2 then 1 else 0),
       (if f.sex = "Male" then 1 else 0),
       (if f.sex = "Other" then 1 else 0),
       (if 30 ≤ f.weight / ((f.height / 100) ^ 2) then 1 else 0),
       (if 25 ≤ f.weight / ((f.height / 100) ^ 2) ∧
           f.weight / ((f.height / 100) ^ 2) < 30 then 1 else 0),
       (if f.weight / ((f.height / 100) ^ 2) < 18.5 then 1 else 0)] := by
  simp only [diseaseFeatures, if_neg h, bmiCategoryOf_eq_obese_iff,
    bmiCategoryOf_eq_overweight_iff, bmiCategoryOf_eq_underweight_iff]

/-- Witness for C1 at a concrete form: height 160, weight 80 gives
BMI 31.25, category Obese, and the stated 20-element vector. -/
theorem c1_disease_feature_vector_witness :
    ((160 : ℚ) ≠ 0) ∧
    diseaseFeatures
      { age := 65, height := 160, weight := 80, systolic_bp := 150,
        diastolic_bp := 95, glucose := 150, cholesterol := 200,
        creatinine := 1.5, diabetes := 1, hypertension := 1, sex := "Male" } =
      some [65, 31.25, 150, 95, 150, 200, 1.5, 1, 1, (150 + 2 * 95) / 3,
        ((1 + 1 : ℤ) : ℚ), 1, 1, 1, 1, 1, 0, 1, 0, 0] := by
  constructor
  · norm_num
  · rw [c1_disease_feature_vector _ (by norm_num)]
    norm_num
    decide

/-- C10: label decoding is the inverse of label encoding: for every
diagnosis label of `diagnosis_map` the reverse map applied to its code
returns the label, likewise for `severity_map`; every code that is not a
value of the corresponding map decodes to "Unknown". -/
theorem c10_label_decoding_inverse :
    (∀ L c, (L, c) ∈ diagnosis_map → decodeDiagnosis c = L) ∧
    (∀ c, c ∉ diagnosis_map.map Prod.snd → decodeDiagnosis c = "Unknown") ∧
    (∀ L c, (L, c) ∈ severity_map → decodeSeverity c = L) ∧
    (∀ c, c ∉ severity_map.map Prod.snd → decodeSeverity c = "Unknown") := by
  refine ⟨?_, ?_, ?_, ?_⟩
  · intro L c hm
    fin_cases hm <;> rfl
  · intro c hm
    simp only [diagnosis_map, List.map, List.mem_cons, List.not_mem_nil,
      or_false, not_or] at hm
    obtain ⟨h0, h1, h2, h3, h4, h5, h6, h7⟩ := hm
    simp [decodeDiagnosis, reverse_diagnosis_map, diagnosis_map, List.find?,
      beq_eq_false_iff_ne.mpr (Ne.symm h0), beq_eq_false_iff_ne.mpr (Ne.symm h1),
      beq_eq_false_iff_ne.mpr (Ne.symm h2), beq_eq_false_iff_ne.mpr (Ne.symm h3),
      beq_eq_false_iff_ne.mpr (Ne.symm h4), beq_eq_false_iff_ne.mpr (Ne.symm h5),
      beq_eq_false_iff_ne.mpr (Ne.symm h6), beq_eq_false_iff_ne.mpr (Ne.symm h7)]
  · intro L c hm
    fin_cases hm <;> rfl
  · intro c hm
    simp only [severity_map, List.map, List.mem_cons, List.not_mem_nil,
      or_false, not_or] at hm
    obtain ⟨h0, h1, h2⟩ := hm
    simp [decodeSeverity, reverse_severity_map, severity_map, List.find?,
      beq_eq_false_iff_ne.mpr (Ne.symm h0), beq_eq_false_iff_ne.mpr (Ne.symm h1),
      beq_eq_false_iff_ne.mpr (Ne.symm h2)]

/-- Witness for C10 at concrete inputs: code 0 decodes back to Asthma,
code 2 to Severe, and the out-of-range codes 8 and -1 decode to Unknown. -/
theorem c10_label_decoding_inverse_witness :
    decodeDiagnosis 0 = "Asthma" ∧ decodeDiagnosis 8 = "Unknown" ∧
    decodeSeverity 2 = "Severe" ∧ decodeSeverity (-1) = "Unknown" :=
  ⟨c10_label_decoding_inverse.1 "Asthma" 0 (by decide),
   c10_label_decoding_inverse.2.1 8 (by decide),
   c10_label_decoding_inverse.2.2.1 "Severe" 2 (by decide),
   c10_label_decoding_inverse.2.2.2 (-1) (by decide)⟩

/-- C2: in the LOS app, categorical admission inputs are encoded only
through the static lookup tables: a key of the table encodes to its fixed
numeric code, any other value encodes to 0, the encoded values sit at
positions 0 and 1 of the model input, and no request modifies the
tables (the handler returns the module state unchanged). -/
theorem c2_los_static_lookup_encoding :
    (∀ k v, (k, v) ∈ ADMISSION_TYPE_ENCODING →
      dictGetD losInitState.admissionTypeTable k 0 = v) ∧
    (∀ k, k ∉ ADMISSION_TYPE_ENCODING.map Prod.fst →
      dictGetD losInitState.admissionTypeTable k 0 = 0) ∧
    (∀ k v, (k, v) ∈ ADMISSION_LOCATION_ENCODING →
      dictGetD losInitState.admissionLocationTable k 0 = v) ∧
    (∀ k, k ∉ ADMISSION_LOCATION_ENCODING.map Prod.fst →
      dictGetD losInitState.admissionLocationTable k 0 = 0) ∧
    (∀ st f age, (losFeatures st f age)[0]? =
      some (dictGetD st.admissionTypeTable (f.admission_type.getD "") 0) ∧
      (losFeatures st f age)[1]? =
      some (dictGetD st.admissionLocationTable (f.admission_location.getD "") 0)) ∧
    (∀ st parseFloat predict f,
      (losIndexPost st parseFloat predict f).1 = st) := by
  refine ⟨?_, ?_, ?_, ?_, ?_, ?_⟩
  · intro k v hm
    fin_cases hm <;> rfl
  · intro k hm
    simp only [ADMISSION_TYPE_ENCODING, List.map, List.mem_cons,
      List.not_mem_nil, or_false, not_or] at hm
    obtain ⟨h0, h1, h2, h3, h4, h5, h6, h7, h8⟩ := hm
    simp [dictGetD, losInitState, ADMISSION_TYPE_ENCODING, List.find?,
      beq_eq_false_iff_ne.mpr (Ne.symm h0), beq_eq_false_iff_ne.mpr (Ne.symm h1),
      beq_eq_false_iff_ne.mpr (Ne.symm h2), beq_eq_false_iff_ne.mpr (Ne.symm h3),
      beq_eq_false_iff_ne.mpr (Ne.symm h4), beq_eq_false_iff_ne.mpr (Ne.symm h5),
      beq_eq_false_iff_ne.mpr (Ne.symm h6), beq_eq_false_iff_ne.mpr (Ne.symm h7),
      beq_eq_false_iff_ne.mpr (Ne.symm h8)]
  · intro k v hm
    fin_cases hm <;> rfl
  · intro k hm
    simp only [ADMISSION_LOCATION_ENCODING, List.map, List.mem_cons,
      List.not_mem_nil, or_false, not_or] at hm
    obtain ⟨h0, h1, h2, h3, h4, h5, h6, h7, h8, h9⟩ := hm
    simp [dictGetD, losInitState, ADMISSION_LOCATION_ENCODING, List.find?,
      beq_eq_false_iff_ne.mpr (Ne.symm h0), beq_eq_false_iff_ne.mpr (Ne.symm h1),
      beq_eq_false_iff_ne.mpr (Ne.symm h2), beq_eq_false_iff_ne.mpr (Ne.symm h3),
      beq_eq_false_iff_ne.mpr (Ne.symm h4), beq_eq_false_iff_ne.mpr (Ne.symm h5),
      beq_eq_false_iff_ne.mpr (Ne.symm h6), beq_eq_false_iff_ne.mpr (Ne.symm h7),
      beq_eq_false_iff_ne.mpr (Ne.symm h8), beq_eq_false_iff_ne.mpr (Ne.symm h9)]
  · intro st f age
    exact ⟨rfl, rfl⟩
  · intro st parseFloat predict f
    unfold losIndexPost
    split
    · rfl
    · split
      · rfl
      · split <;> rfl

/-- Witness for C2 at concrete inputs: URGENT encodes to its table value,
an unknown admission type encodes to 0. -/
theorem c2_los_static_lookup_encoding_witness :
    dictGetD losInitState.admissionTypeTable "URGENT" 0 = 10.50514107 ∧
    dictGetD losInitState.admissionTypeTable "HELICOPTER" 0 = 0 ∧
    dictGetD losInitState.admissionLocationTable "PACU" 0 = 0.39633448 ∧
    (losIndexPost losInitState pfW prW lfW).1 = losInitState :=
  ⟨c2_los_static_lookup_encoding.1 "URGENT" 10.50514107
     (by simp [ADMISSION_TYPE_ENCODING]),
   c2_los_static_lookup_encoding.2.1 "HELICOPTER" (by decide),
   c2_los_static_lookup_encoding.2.2.1 "PACU" 0.39633448
     (by simp [ADMISSION_LOCATION_ENCODING]),
   c2_los_static_lookup_encoding.2.2.2.2.2 losInitState pfW prW lfW⟩

/-- C3: the feature-engineering and encoding layer is deterministic: two
requests carrying identical form field values yield identical feature
vectors (Disease) and identical handler results (LOS); the computation
reads nothing but the submitted fields, the static tables in the module
state, and the fixed loaded artifacts. -/
theorem c3_encoding_deterministic :
    (∀ f g : DiseaseForm, f.age = g.age → f.height = g.height →
      f.weight = g.weight → f.systolic_bp = g.systolic_bp →
      f.diastolic_bp = g.diastolic_bp → f.glucose = g.glucose →
      f.cholesterol = g.cholesterol → f.creatinine = g.creatinine →
      f.diabetes = g.diabetes → f.hypertension = g.hypertension →
      f.sex = g.sex → diseaseFeatures f = diseaseFeatures g) ∧
    (∀ st parseFloat predict (f g : LOSForm),
      f.admission_type = g.admission_type →
      f.admission_location = g.admission_location →
      f.insurance = g.insurance → f.language = g.language →
      f.marital_status = g.marital_status → f.drg_type = g.drg_type →
      f.gender = g.gender → f.age = g.age →
      losIndexPost st parseFloat predict f =
      losIndexPost st parseFloat predict g) := by
  constructor
  · intro f g h1 h2 h3 h4 h5 h6 h7 h8 h9 h10 h11
    cases f
    cases g
    simp_all
  · intro st parseFloat predict f g h1 h2 h3 h4 h5 h6 h7 h8
    cases f
    cases g
    simp_all

/-- Witness for C3: two syntactically identical concrete forms produce
the same outputs. -/
theorem c3_encoding_deterministic_witness :
    diseaseFeatures dfW = diseaseFeatures dfW ∧
    losIndexPost losInitState pfW prW lfW = losIndexPost losInitState pfW prW lfW :=
  ⟨c3_encoding_deterministic.1 dfW dfW rfl rfl rfl rfl rfl rfl rfl rfl rfl rfl rfl,
   c3_encoding_deterministic.2 losInitState pfW prW lfW lfW rfl rfl rfl rfl rfl rfl rfl rfl⟩

/-- The status label of `patient.py` is High exactly above 0.7. -/
theorem statusOf_high_iff (p : ℚ) : statusOf p = "High" ↔ 0.7 < p := by
  unfold statusOf
  split_ifs with h1 h2 <;> simp <;> linarith

/-- The status label is Moderate exactly on `(0.4, 0.7]`. -/
theorem statusOf_moderate_iff (p : ℚ) :
    statusOf p = "Moderate" ↔ 0.4 < p ∧ p ≤ 0.7 := by
  unfold statusOf
  split_ifs with h1 h2 <;> simp <;> (try constructor) <;> intros <;>
    first | trivial | linarith

/-- The status label is Low exactly on `(-∞, 0.4]`. -/
theorem statusOf_low_iff (p : ℚ) : statusOf p = "Low" ↔ p ≤ 0.4 := by
  unfold statusOf
  split_ifs with h1 h2 <;> simp <;> linarith

/-- C9: in the deterioration/readmission app, for every predicted
probability in `[0,1]` the displayed status is High iff p > 0.7,
Moderate iff 0.4 < p ≤ 0.7, Low iff p ≤ 0.4, and the displayed
percentage equals `round(p*100, 2)`; this holds simultaneously for the
deterioration and the readmission probability of one request. -/
theorem c9_risk_status_thresholds (p q : ℚ)
    (_hp0 : 0 ≤ p) (_hp1 : p ≤ 1) (_hq0 : 0 ≤ q) (_hq1 : q ≤ 1) :
    ((predictRiskResult p q).det_status = "High" ↔ p > 0.7) ∧
    ((predictRiskResult p q).det_status = "Moderate" ↔ 0.4 < p ∧ p ≤ 0.7) ∧
    ((predictRiskResult p q).det_status = "Low" ↔ p ≤ 0.4) ∧
    (predictRiskResult p q).det_prob = pyRound2 (p * 100) ∧
    ((predictRiskResult p q).readm_status = "High" ↔ q > 0.7) ∧
    ((predictRiskResult p q).readm_status = "Moderate" ↔ 0.4 < q ∧ q ≤ 0.7) ∧
    ((predictRiskResult p q).readm_status = "Low" ↔ q ≤ 0.4) ∧
    (predictRiskResult p q).readm_prob = pyRound2 (q * 100) := by
  refine ⟨?_, ?_, ?_, rfl, ?_, ?_, ?_, rfl⟩ <;>
    simp only [predictRiskResult, statusOf_high_iff, statusOf_moderate_iff,
      statusOf_low_iff, gt_iff_lt]

/-- Witness for C9 at concrete probabilities 0.5 and 0.9. -/
theorem c9_risk_status_thresholds_witness :
    (0:ℚ) ≤ 0.5 ∧ (0.5:ℚ) ≤ 1 ∧
    ((predictRiskResult 0.5 0.9).det_status = "Moderate" ↔
      (0.4:ℚ) < 0.5 ∧ (0.5:ℚ) ≤ 0.7) :=
  ⟨by norm_num, by norm_num,
   (c9_risk_status_thresholds 0.5 0.9 (by norm_num) (by norm_num)
     (by norm_num) (by norm_num)).2.1⟩

/-- C8: for every POST to the LOS index route, a missing or empty field
renders the warning string and the model is never consulted (the result
is the same for every parser and model); with all fields filled, a
parsing or prediction exception is caught and rendered as a string
starting with the failure marker; and in every case the handler returns
a rendered page value. -/
theorem c8_los_error_handling (st : LOSState)
    (parseFloat : String → Except String ℚ)
    (predict : List ℚ → Except String ℚ) (f : LOSForm) :
    (losAllFilled f = false →
      losIndexPost st parseFloat predict f =
        (st, some "⚠️ Please fill all fields")) ∧
    (∀ e, losAllFilled f = true →
      parseFloat (f.age.getD "") = .error e →
      (losIndexPost st parseFloat predict f).2 =
        some ("❌ Prediction failed: " ++ e)) ∧
    (∀ a e, losAllFilled f = true →
      parseFloat (f.age.getD "") = .ok a →
      predict (losFeatures st f a) = .error e →
      (losIndexPost st parseFloat predict f).2 =
        some ("❌ Prediction failed: " ++ e)) ∧
    (losIndexPost st parseFloat predict f).2.isSome = true := by
  refine ⟨?_, ?_, ?_, ?_⟩
  · intro hf
    simp [losIndexPost, hf]
  · intro e hf hp
    simp [losIndexPost, hf, hp]
  · intro a e hf hp hq
    simp [losIndexPost, hf, hp, hq]
  · unfold losIndexPost
    split
    · rfl
    · split
      · rfl
      · split <;> rfl

/-- Witness for C8 at concrete inputs: a form with a missing age renders
the warning for an arbitrary parser and model, and a raising model
renders the failure marker. -/
theorem c8_los_error_handling_witness :
    (losAllFilled lfMissing = false) ∧
    losIndexPost losInitState pfW prW lfMissing =
      (losInitState, some "⚠️ Please fill all fields") ∧
    (losAllFilled lfW = true) ∧
    (losIndexPost losInitState pfW prErr lfW).2 =
      some ("❌ Prediction failed: " ++ "X has 11 features") :=
  ⟨by decide,
   (c8_los_error_handling losInitState pfW prW lfMissing).1 (by decide),
   by decide,
   (c8_los_error_handling losInitState pfW prErr lfW).2.2.1 40
     "X has 11 features" (by decide) rfl rfl⟩

/-- C5, counterexample: the claim that no route mutates shared state
beyond a per-request SQLite insert or select fails at the concrete route
`delete_appointment` (`Home/app.py` lines 104-111), whose handler runs a
SQL DELETE. -/
theorem c5_counterexample :
    ¬ (routeEffects Route.deleteAppointment ⊆ [Effect.dbInsert, Effect.dbSelect]) := by
  decide

/-- C5, amended: every route outside the listed exceptions
(`delete_appointment`, the admin session routes, the Image-Diagnostics
page and its two upload handlers, and the two file-writing handlers of
`app1.py`) mutates no shared state beyond a per-request SQLite insert
or select. -/
theorem c5_amended_route_effects (r : Route) (h : r ∉ statefulRoutes) :
    routeEffects r ⊆ [Effect.dbInsert, Effect.dbSelect] := by
  cases r <;> revert h <;> decide

/-- Witness for the amended C5 at a concrete route: the Disease predict
handler touches no shared state. -/
theorem c5_amended_route_effects_witness :
    routeEffects Route.diseasePredict ⊆ [Effect.dbInsert, Effect.dbSelect] :=
  c5_amended_route_effects Route.diseasePredict (by decide)

/-- C6: model artifacts are deserialized exactly once each, at
module-import time before any request is served; no handler performs a load,
so after any sequence of requests in one process the per-artifact load
count is still exactly the startup count of one. -/
theorem c6_models_loaded_once :
    (∀ r : Route, handlerLoads r = []) ∧
    (∀ a : Artifact, startupLoadCount a = 1) ∧
    (∀ (rs : List Route) (a : Artifact), runRequests rs a = 1) := by
  refine ⟨fun r => rfl, fun a => by cases a <;> rfl, ?_⟩
  intro rs a
  have hrun : ∀ (c : LoadCount), rs.foldl stepRequest c = c := by
    intro c
    induction rs generalizing c with
    | nil => rfl
    | cons r rs ih =>
      have hstep : stepRequest c r = c := by
        funext b
        simp [stepRequest, handlerLoads]
      simp [List.foldl, hstep, ih]
  rw [runRequests, hrun]
  cases a <;> rfl

/-- The first mutation pass keeps every column name. -/
theorem mutateCell1_fst (st : ClusterState) (cv : String × Value) :
    (mutateCell1 st cv).1 = cv.1 := by
  unfold mutateCell1
  split <;> rfl

/-- The second mutation pass keeps every column name. -/
theorem mutateCell2_fst (st : ClusterState) (cv : String × Value) :
    (mutateCell2 st cv).1 = cv.1 := by
  unfold mutateCell2
  split <;> rfl

/-- Mapping with a name-preserving cell function preserves the column
name list. -/
theorem map_fst_of_preserve {f : (String × Value) → (String × Value)}
    (h : ∀ cv, (f cv).1 = cv.1) (l : Frame) :
    (l.map f).map Prod.fst = l.map Prod.fst := by
  induction l with
  | nil => rfl
  | cons cv t ih => simp [h, ih]

/-- C4, counterexample: `preprocess_input` does not leave its input
argument unchanged: on the concrete frame built by the predict route the
caller-visible frame after the call differs from the frame passed in
(the categorical columns have been overwritten in place). -/
theorem c4_counterexample :
    (preprocess_input clusterStateW frameW).2.2 ≠ frameW := by
  decide

/-- C4, amended: `preprocess_input` writes no module-level state (the
state is returned unchanged), but it mutates its input frame in place:
the column names are preserved, while exactly the `categorical_Binary`
columns and the columns with a `mappings` entry are overwritten; every
cell of any other column survives in the caller-visible frame. -/
theorem c4_amended_preprocess_mutates_input (st : ClusterState) (data : Frame) :
    (preprocess_input st data).1 = st ∧
    (preprocess_input st data).2.2.map Prod.fst = data.map Prod.fst ∧
    (∀ c v, (c, v) ∈ data → c ∉ categorical_Binary →
      (∀ m, (c, m) ∉ st.mappings) →
      (c, v) ∈ (preprocess_input st data).2.2) := by
  refine ⟨rfl, ?_, ?_⟩
  · show (mutateFrame st data).map Prod.fst = data.map Prod.fst
    unfold mutateFrame
    rw [map_fst_of_preserve (mutateCell2_fst st),
      map_fst_of_preserve (mutateCell1_fst st)]
  · intro c v hmem h1 h2
    show (c, v) ∈ mutateFrame st data
    have hc1 : mutateCell1 st (c, v) = (c, v) := if_neg h1
    have hnone : st.mappings.find? (fun p => p.1 == (c, v).1) = none := by
      rw [List.find?_eq_none]
      intro p hp
      cases p with
      | mk pc pm =>
        simp only [beq_iff_eq, Bool.not_eq_true, decide_eq_false_iff_not]
        intro heq
        apply h2 pm
        rw [← heq]
        exact hp
    have hc2 : mutateCell2 st (c, v) = (c, v) := by
      unfold mutateCell2
      rw [hnone]
      rfl
    unfold mutateFrame
    exact List.mem_map.mpr ⟨(c, v), List.mem_map.mpr ⟨(c, v), hmem, hc1⟩, hc2⟩

/-- Witness for the amended C4: the concrete state and frame have the
state returned unchanged and the untouched BMI column preserved. -/
theorem c4_amended_preprocess_mutates_input_witness :
    (preprocess_input clusterStateW frameW).1 = clusterStateW ∧
    ("BMI", Value.num 24) ∈ (preprocess_input clusterStateW frameW).2.2 :=
  ⟨(c4_amended_preprocess_mutates_input clusterStateW frameW).1,
   (c4_amended_preprocess_mutates_input clusterStateW frameW).2.2 "BMI"
     (Value.num 24) (by decide) (by decide)
     (fun m => by simp [clusterStateW, clusterMappings])⟩

/-- The dispatcher sends the empty script to the root app. -/
theorem dispatchApp_nil : dispatchApp [] = AppId.home := by
  rw [dispatchApp]

/-- A script of two or more segments is not a mount key. -/
theorem lookupMount_long (a b : String) (t : List String) :
    lookupMount (a :: b :: t) = none := by
  simp [lookupMount]

/-- On a nonempty path the dispatch loop reduces to a lookup of the
first segment. -/
theorem dispatchApp_cons (x : String) (xs : List String) :
    dispatchApp (x :: xs) = (lookupMount [x]).getD AppId.home := by
  induction xs using List.reverseRecOn with
  | nil =>
    rw [dispatchApp]
    cases h : lookupMount [x] with
    | none => simp [h, dispatchApp_nil]
    | some a => simp [h]
  | append_singleton ys y ih =>
    rw [dispatchApp]
    have hlong : lookupMount (x :: (ys ++ [y])) = none := by
      cases ys with
      | nil => exact lookupMount_long x y []
      | cons b bs => exact lookupMount_long x b (bs ++ [y])
    rw [hlong]
    have hdrop : (x :: (ys ++ [y])).dropLast = x :: ys := by
      have : (x :: (ys ++ [y])) = (x :: ys) ++ [y] := by simp
      rw [this, List.dropLast_concat]
    simp only [hdrop, ih]

/-- C7: the wsgi dispatcher sends every request path to exactly one app:
any path whose first segment matches a mount key goes to that app, a
path matching no mount key goes to the root home app, and the mount keys
are pairwise distinct and pairwise non-overlapping, so the matching
prefix is unique and automatically the longest one. -/
theorem c7_wsgi_dispatch (segs : List String) :
    (∀ k a, (k, a) ∈ mounts → k <+: segs → dispatchApp segs = a) ∧
    ((∀ k a, (k, a) ∈ mounts → ¬ k <+: segs) → dispatchApp segs = AppId.home) ∧
    mounts.Pairwise (fun m n => m.1 ≠ n.1 ∧ ¬ m.1 <+: n.1 ∧ ¬ n.1 <+: m.1) := by
  refine ⟨?_, ?_, by decide⟩
  · intro k a hm hp
    fin_cases hm <;>
      (obtain ⟨t, rfl⟩ := hp
       simp only [List.cons_append, List.nil_append]
       rw [dispatchApp_cons]
       rfl)
  · intro h
    cases segs with
    | nil => exact dispatchApp_nil
    | cons x xs =>
      rw [dispatchApp_cons]
      have h1 : x ≠ "LOS" :=
        fun he => h ["LOS"] AppId.los (by decide) ⟨xs, by simp [he]⟩
      have h2 : x ≠ "Disease" :=
        fun he => h ["Disease"] AppId.disease (by decide) ⟨xs, by simp [he]⟩
      have h3 : x ≠ "Patient" :=
        fun he => h ["Patient"] AppId.patient (by decide) ⟨xs, by simp [he]⟩
      have h4 : x ≠ "Image-Diagnostics" :=
        fun he => h ["Image-Diagnostics"] AppId.imageDiagnostics (by decide)
          ⟨xs, by simp [he]⟩
      have h5 : x ≠ "Summarizer" :=
        fun he => h ["Summarizer"] AppId.summarizer (by decide) ⟨xs, by simp [he]⟩
      have h6 : x ≠ "Senti" :=
        fun he => h ["Senti"] AppId.senti (by decide) ⟨xs, by simp [he]⟩
      have h7 : x ≠ "Cluster" :=
        fun he => h ["Cluster"] AppId.cluster (by decide) ⟨xs, by simp [he]⟩
      have h8 : x ≠ "chat" :=
        fun he => h ["chat"] AppId.chat (by decide) ⟨xs, by simp [he]⟩
      simp [lookupMount, h1, h2, h3, h4, h5, h6, h7, h8]

/-- Witness for C7 at concrete paths: /LOS/foo dispatches to the LOS app
and /nosuch dispatches to the home app. -/
theorem c7_wsgi_dispatch_witness :
    dispatchApp ["LOS", "foo"] = AppId.los ∧
    dispatchApp ["nosuch"] = AppId.home :=
  ⟨(c7_wsgi_dispatch ["LOS", "foo"]).1 ["LOS"] AppId.los (by decide)
     ⟨["foo"], rfl⟩,
   (c7_wsgi_dispatch ["nosuch"]).2.1 (by intro k a hm; fin_cases hm <;> decide)⟩

end HealthcareApp
